import Mathlib

/-!
Verification of the record-normalization and streaming-relay pipeline of
`backend/main.py` (a FastAPI relay over the DataBento live feed).

Shallow embedding notes:
* Upstream records are duck-typed Python objects probed with `getattr` /
  `hasattr`; we model each probed attribute as an `Option` field.
* Numeric record fields (prices) are modelled as rationals `ℚ`: every value
  the relevant claims touch (integers below 2^53, `4500.25`, `102.5`, the
  quotient `4500250000000 / 1e9`) is exactly representable as an IEEE double
  and the operations involved are exact, so `ℚ` is a faithful carrier.
* Wall-clock timestamps are an opaque `Nat` parameter `now` threaded in.
* `stream_price_data` is an async generator; we model one session as a pure
  function from its inputs (symbols, credential, subscription outcome, the
  list of records the upstream iterator yields before it either ends or
  raises) to the list of emitted SSE events.
* Python attribute accesses that can raise are modelled with `Except`; in
  particular the eager evaluation of `getattr`'s default argument on line
  135 of the source (`record.hd` is evaluated before the outer lookup) is
  modelled explicitly.
-/

namespace PriceMonitor

/-- Nested header of an upstream record (`record.hd`); its `ts_event`
attribute may itself be absent. -/
structure Header where
  ts_event : Option Nat
deriving DecidableEq, Repr

/-- One entry of `record.levels`: the probed attributes `bid_px`, `ask_px`,
`bid_sz`, `ask_sz`, each possibly absent. Prices are rationals (see module
comment), sizes are unsigned integers. -/
structure Level where
  bid_px : Option ℚ
  ask_px : Option ℚ
  bid_sz : Option Nat
  ask_sz : Option Nat
deriving DecidableEq, Repr

/-- An upstream record as probed by `stream_price_data`: the runtime type
name (`type(record).__name__`) plus every attribute the code reads, each
optional because the code guards reads with `hasattr`/`getattr` fallbacks.
-/
structure Record where
  rtype : String
  symbol : Option String
  instrument_id : Option Nat
  ts_event : Option Nat
  hd : Option Header
  levels : Option (List Level)
deriving DecidableEq, Repr

/-- The semantic category the dispatch on lines 125-193 assigns to a record
type name. -/
inductive RecordKind where
  | mappingUpdate
  | quoteTrade
  | unhandled
deriving DecidableEq, Repr

/-- Line 130: `record_type in ["MBP1Msg", "MBPMsg", "TradeMsg"]`. -/
def isQuoteTradeType (s : String) : Bool :=
  s == "MBP1Msg" || s == "MBPMsg" || s == "TradeMsg"

/-- The `if/elif/else` dispatch on `type(record).__name__`
(lines 125, 130, 190). -/
def classifyRecord (r : Record) : RecordKind :=
  if r.rtype == "SymbolMappingMsg" then .mappingUpdate
  else if isQuoteTradeType r.rtype then .quoteTrade
  else .unhandled

/-- Lines 152-170: convert a raw price to float; if it exceeds 1,000,000
treat it as fixed-point and divide by 1e9, otherwise keep it unchanged;
an absent raw field stays `None`. -/
def decodePrice (raw : Option ℚ) : Option ℚ :=
  match raw with
  | none => none
  | some v => if v > 1000000 then some (v / 1000000000) else some v

/-- Lines 172-173: `int(level.bid_sz) if hasattr(level, 'bid_sz') and
level.bid_sz else None` — an absent attribute or a falsy (zero) value
yields `None`. -/
def decodeSize (raw : Option Nat) : Option Nat :=
  match raw with
  | none => none
  | some n => if n = 0 then none else some n

/-- Line 143: `hasattr(record, 'levels') and record.levels and
len(record.levels) > 0`, then `record.levels[0]` — the top-of-book level,
absent when the attribute is missing or the list is empty. -/
def topLevel (levels : Option (List Level)) : Option Level :=
  match levels with
  | some (l :: _) => some l
  | _ => none

/-- Line 134: `getattr(record, 'symbol', getattr(record, 'instrument_id',
'UNKNOWN'))` followed by `str(...)` on line 176. Both lookups are plain
`getattr` with defaults on the record itself, so this never raises. -/
def resolveSymbol (r : Record) : String :=
  match r.symbol with
  | some s => s
  | none =>
    match r.instrument_id with
    | some i => toString i
    | none => "UNKNOWN"

/-- Python attribute access `record.hd`: raises `AttributeError` when the
attribute is absent. The message is the usual
`<type> object has no attribute hd` (quoting elided). -/
def getHd (r : Record) : Except String Header :=
  match r.hd with
  | some h => Except.ok h
  | none => Except.error (r.rtype ++ " object has no attribute hd")

/-- Line 135: `getattr(record, 'ts_event', getattr(record.hd, 'ts_event',
datetime.now()))`. Python evaluates the default argument eagerly, so
`record.hd` is accessed (and may raise) before the outer lookup even when
`record.ts_event` is present. -/
def resolveTimestamp (r : Record) (now : Nat) : Except String Nat :=
  match getHd r with
  | .error e => .error e
  | .ok h =>
    .ok (match r.ts_event with
      | some t => t
      | none =>
        match h.ts_event with
        | some t => t
        | none => now)

/-- One normalized output tick: the JSON object built on lines 175-184. -/
structure Tick where
  symbol : String
  timestamp : Nat
  bid_price : Option ℚ
  ask_price : Option ℚ
  bid_size : Option Nat
  ask_size : Option Nat
  received_at : Nat
  record_type : String
deriving DecidableEq, Repr

/-- One framed SSE event written by the generator: the initial status
message, the SSE test message, a normalized tick, or an error payload
(`error`, optional `details`, `solutions` list). -/
inductive Event where
  | status (symbols : List String)
  | test
  | tick (t : Tick)
  | error (msg : String) (details : Option String) (solutions : List String)
deriving DecidableEq, Repr

/-- Lines 130-188 with the per-record `except` of lines 195-201: process one
quote/trade record into the events it contributes.  The only raising
expression in the body is the `record.hd` access inside the timestamp
resolution; the handler turns it into a single `Record processing error`
event. Mapping and unhandled records contribute nothing (`continue`). -/
def processRecord (now : Nat) (r : Record) : List Event :=
  match classifyRecord r with
  | .mappingUpdate => []
  | .unhandled => []
  | .quoteTrade =>
    match resolveTimestamp r now with
    | .error e => [.error ("Record processing error: " ++ e) none []]
    | .ok ts =>
      let lvl := topLevel r.levels
      let t : Tick :=
        { symbol := resolveSymbol r
          timestamp := ts
          bid_price := match lvl with
            | some l => decodePrice l.bid_px
            | none => none
          ask_price := match lvl with
            | some l => decodePrice l.ask_px
            | none => none
          bid_size := match lvl with
            | some l => decodeSize l.bid_sz
            | none => none
          ask_size := match lvl with
            | some l => decodeSize l.ask_sz
            | none => none
          received_at := now
          record_type := r.rtype }
      [.tick t]

/-- Lines 203-209: the `except` around the `async for` loop. When the
iteration itself raises with message `m`, one generic `Iteration error`
event (no details, no solutions) ends the stream. -/
def iterationTail (iterErr : Option String) : List Event :=
  match iterErr with
  | some m => [.error ("Iteration error: " ++ m) none []]
  | none => []

/-- Lower-case a character sequence (Python's `str.lower()` restricted to
the ASCII patterns the handler matches). -/
def lowerChars (cs : List Char) : List Char :=
  cs.map Char.toLower

/-- `beginsWith p s`: `p` is a prefix of `s`. -/
def beginsWith : List Char → List Char → Bool
  | [], _ => true
  | _ :: _, [] => false
  | p :: ps, c :: cs => p == c && beginsWith ps cs

/-- `containsSeq p s`: `p` occurs as a contiguous subsequence of `s`
(Python's `p in s` on strings). -/
def containsSeq (pat : List Char) : List Char → Bool
  | [] => beginsWith pat []
  | c :: cs => beginsWith pat (c :: cs) || containsSeq pat cs

/-- Case-insensitive substring test, modelling Python's
`"pat" in msg.lower()`. -/
def containsCI (s pat : String) : Bool :=
  containsSeq pat.toList (lowerChars s.toList)

/-- Lines 211-246: the outer `except` handler classifying a failure raised
before the streaming loop (client construction / subscription). -/
def classifyConnectionError (m : String) : Event :=
  if containsCI m "authentication failed" || containsCI m "cram" then
    .error "DataBento Authentication Failed"
      (some "Invalid API key or insufficient permissions for live data")
      ["Verify your API key is correct",
       "Ensure your key has live data access permissions",
       "Check if your key is for live data (not just historical)",
       "Contact DataBento support if key appears valid"]
  else if containsCI m "nonetype" || containsCI m "await" then
    .error "DataBento Client Initialization Failed"
      (some "Client object is None, likely due to subscription failure")
      ["Check if your API key has live data permissions",
       "Verify the dataset and schema are correct",
       "Ensure symbols are valid for the dataset",
       "Check DataBento service status"]
  else
    .error ("DataBento API error: " ++ m) none []

/-- Lines 68-75: the error payload emitted when `DATABENTO_API_KEY` is
unset. -/
def configErrorEvent : Event :=
  .error "DATABENTO_API_KEY environment variable not set"
    (some "Please set DATABENTO_API_KEY environment variable to use the live data stream")
    []

/-- Line 68: Python truthiness of the credential — `not DATABENTO_API_KEY`
is true exactly when the variable is unset (`None`) or the empty string. -/
def keyMissing (key : Option String) : Bool :=
  match key with
  | none => true
  | some k => k == ""

/-- One full run of `stream_price_data` for a session, as the list of SSE
events it yields, parametrized by the inputs the excluded collaborators
supply: the requested symbols, the process credential, the outcome of
client construction + subscription (`sub`, whose error is the raised
message), the records the upstream iterator yields, and the message of the
exception that ends iteration, if any (`iterErr = none` models a normally
ending / cancelled iteration). -/
def runSession (symbols : List String) (key : Option String)
    (sub : Except String Unit) (records : List Record)
    (iterErr : Option String) (now : Nat) : List Event :=
  if keyMissing key then [configErrorEvent]
  else
    match sub with
    | .error m => [classifyConnectionError m]
    | .ok _ =>
      .status symbols :: .test ::
        ((records.map (processRecord now)).flatten ++ iterationTail iterErr)

/-- Python's `str.split(",")` on the character list: split at every comma,
keeping empty pieces; the result of `split` is never the empty list (even
`"".split(",")` is `[""]`). -/
def splitComma : List Char → List Char → List (List Char)
  | [], acc => [acc.reverse]
  | c :: rest, acc =>
    if c = ',' then acc.reverse :: splitComma rest []
    else splitComma rest (c :: acc)

/-- Python's `str.strip()`: drop leading and trailing whitespace. -/
def pyStrip (cs : List Char) : List Char :=
  ((cs.dropWhile Char.isWhitespace).reverse.dropWhile Char.isWhitespace).reverse

/-- Line 300: `[s.strip() for s in symbols.split(",")]`. -/
def parseSymbols (s : String) : List String :=
  (splitComma s.toList []).map (fun cs => String.mk (pyStrip cs))

/-- Lines 300-306 of the `/stream/prices` endpoint: reject with HTTP 400
when the parsed symbol list is empty, otherwise create the session with
that list. -/
def streamPricesEndpoint (symbols : String) : Except Nat (List String) :=
  let symbolList := parseSymbols symbols
  if symbolList = [] then Except.error 400 else Except.ok symbolList

end PriceMonitor

/-! ## Helper lemmas -/

namespace PriceMonitor

/-- `splitComma` never returns the empty list (even on empty input it
returns `[[]]`, matching Python where `"".split(",") == [""]`). -/
theorem splitComma_ne_nil (l acc : List Char) : splitComma l acc ≠ [] := by
  induction l generalizing acc with
  | nil => simp [splitComma]
  | cons c rest ih =>
    simp only [splitComma]
    split
    · simp
    · exact ih _

/-- `decodeSize` never produces the size `0`. -/
theorem decodeSize_ne_some_zero (o : Option Nat) : decodeSize o ≠ some 0 := by
  rcases o with _ | n
  · simp [decodeSize]
  · simp only [decodeSize]
    split
    · simp
    · simp_all

/-- Every event a single record contributes is either a tick whose sizes
are never the integer `0`, or a bare error event with no details and no
solutions. -/
theorem processRecord_event_shape (now : Nat) (r : Record) (e : Event)
    (he : e ∈ processRecord now r) :
    (∃ t, e = Event.tick t ∧ t.bid_size ≠ some 0 ∧ t.ask_size ≠ some 0) ∨
    (∃ m, e = Event.error m none []) := by
  unfold processRecord at he
  cases hc : classifyRecord r with
  | mappingUpdate => rw [hc] at he; simp at he
  | unhandled => rw [hc] at he; simp at he
  | quoteTrade =>
    rw [hc] at he
    cases ht : resolveTimestamp r now with
    | error msg =>
      rw [ht] at he
      simp at he
      exact Or.inr ⟨_, he⟩
    | ok ts =>
      rw [ht] at he
      simp at he
      refine Or.inl ⟨_, he, ?_, ?_⟩ <;>
        · simp only
          cases hl : topLevel r.levels <;> simp [hl, decodeSize_ne_some_zero]

/-- The connection-error classifier always returns an error event. -/
theorem classifyConnectionError_is_error (m : String) :
    ∃ msg d sols, classifyConnectionError m = Event.error msg d sols := by
  unfold classifyConnectionError
  split
  · exact ⟨_, _, _, rfl⟩
  · split
    · exact ⟨_, _, _, rfl⟩
    · exact ⟨_, _, _, rfl⟩

/-- When the nested header is present, the timestamp resolution succeeds
and returns the record-level event time, else the header event time, else
the wall clock. -/
theorem resolveTimestamp_ok_of_header (r : Record) (h : Header) (now : Nat)
    (hh : r.hd = some h) :
    resolveTimestamp r now =
      Except.ok (r.ts_event.getD (h.ts_event.getD now)) := by
  obtain ⟨rt, sy, iid, tse, hd, lv⟩ := r
  obtain ⟨hts_event⟩ := h
  cases tse <;> cases hts_event <;> simp_all [resolveTimestamp, getHd]

/-- Case analysis on where an event of a session run comes from. -/
theorem runSession_event_cases (sym : List String) (key : Option String)
    (sub : Except String Unit) (rs : List Record) (ie : Option String)
    (now : Nat) (e : Event) (he : e ∈ runSession sym key sub rs ie now) :
    e = configErrorEvent ∨ (∃ m, e = classifyConnectionError m) ∨
    e = Event.status sym ∨ e = Event.test ∨
    (∃ r, r ∈ rs ∧ e ∈ processRecord now r) ∨
    (∃ m, e = Event.error ("Iteration error: " ++ m) none []) := by
  unfold runSession at he
  split at he
  · simp at he
    exact Or.inl he
  · cases sub with
    | error m =>
      simp at he
      exact Or.inr (Or.inl ⟨m, he⟩)
    | ok u =>
      simp only [List.mem_cons] at he
      rcases he with rfl | he
      · exact Or.inr (Or.inr (Or.inl rfl))
      rcases he with rfl | he
      · exact Or.inr (Or.inr (Or.inr (Or.inl rfl)))
      rcases List.mem_append.1 he with he | he
      · rcases List.mem_flatten.1 he with ⟨l, hl, hel⟩
        rcases List.mem_map.1 hl with ⟨r, hr, rfl⟩
        exact Or.inr (Or.inr (Or.inr (Or.inr (Or.inl ⟨r, hr, hel⟩))))
      · cases ie with
        | none => simp [iterationTail] at he
        | some m =>
          simp [iterationTail] at he
          exact Or.inr (Or.inr (Or.inr (Or.inr (Or.inr ⟨m, he⟩))))

end PriceMonitor

/-! ## Claim theorems -/

namespace PriceMonitor

/-- C1: a present raw bid/ask price decodes to the raw value divided by 1e9
when it exceeds 1,000,000 and to the value unchanged otherwise; in
particular the fixed-point raw value 4500250000000 decodes to 4500.25 and
the plain value 102.5 decodes unchanged. -/
theorem price_decoding_policy :
    (∀ v : ℚ, 1000000 < v → decodePrice (some v) = some (v / 1000000000)) ∧
    (∀ v : ℚ, v ≤ 1000000 → decodePrice (some v) = some v) ∧
    decodePrice (some 4500250000000) = some (4500.25 : ℚ) ∧
    decodePrice (some (102.5 : ℚ)) = some (102.5 : ℚ) := by
  refine ⟨?_, ?_, ?_, ?_⟩
  · intro v hv
    simp [decodePrice, hv]
  · intro v hv
    simp [decodePrice, hv.not_lt]
  · norm_num [decodePrice]
  · norm_num [decodePrice]

/-- C1 witness: the two branches of the decoding policy instantiated at
concrete raw values. -/
theorem price_decoding_policy_witness :
    decodePrice (some 4500250000000) = some ((4500250000000 : ℚ) / 1000000000) ∧
    decodePrice (some (102.5 : ℚ)) = some (102.5 : ℚ) :=
  ⟨price_decoding_policy.1 4500250000000 (by norm_num),
   price_decoding_policy.2.1 (102.5 : ℚ) (by norm_num)⟩

/-- C2 counterexample: a quote record that carries a record-level event
time but no nested header makes the timestamp expression raise (Python
evaluates `record.hd` inside the eager default argument), so the claimed
"resolution never fails for any combination" is false: the record is
reported as a processing error and produces no tick. -/
theorem event_time_resolution_can_fail :
    resolveTimestamp
        { rtype := "MBP1Msg", symbol := some "ES", instrument_id := none,
          ts_event := some 42, hd := none, levels := none } 0 =
      Except.error "MBP1Msg object has no attribute hd" ∧
    processRecord 0
        { rtype := "MBP1Msg", symbol := some "ES", instrument_id := none,
          ts_event := some 42, hd := none, levels := none } =
      [Event.error "Record processing error: MBP1Msg object has no attribute hd"
        none []] :=
  ⟨rfl, rfl⟩

/-- C2 (amended): when the nested header is present the event-timestamp
fallback chain is exactly record-level event time, else header event time,
else the wall clock, and the emitted tick carries that resolved value; when
the header is absent the resolution raises an attribute error even if the
record-level event time is present. -/
theorem event_timestamp_fallback :
    (∀ r now h t, r.hd = some h → r.ts_event = some t →
      resolveTimestamp r now = Except.ok t) ∧
    (∀ r now h t, r.hd = some h → r.ts_event = none → h.ts_event = some t →
      resolveTimestamp r now = Except.ok t) ∧
    (∀ r now h, r.hd = some h → r.ts_event = none → h.ts_event = none →
      resolveTimestamp r now = Except.ok now) ∧
    (∀ r now, r.hd = none →
      resolveTimestamp r now =
        Except.error (r.rtype ++ " object has no attribute hd")) ∧
    (∀ now r h, classifyRecord r = RecordKind.quoteTrade → r.hd = some h →
      ∃ t, processRecord now r = [Event.tick t] ∧
        t.timestamp = r.ts_event.getD (h.ts_event.getD now)) := by
  refine ⟨?_, ?_, ?_, ?_, ?_⟩
  · intro r now h t hh ht
    simp [resolveTimestamp, getHd, hh, ht]
  · intro r now h t hh ht hht
    simp [resolveTimestamp, getHd, hh, ht, hht]
  · intro r now h hh ht hht
    simp [resolveTimestamp, getHd, hh, ht, hht]
  · intro r now hh
    simp [resolveTimestamp, getHd, hh]
  · intro now r h hc hh
    have hts : resolveTimestamp r now =
        Except.ok (r.ts_event.getD (h.ts_event.getD now)) := by
      obtain ⟨rt, sy, iid, tse, hd, lv⟩ := r
      obtain ⟨hts_event⟩ := h
      cases tse <;> cases hts_event <;> simp_all [resolveTimestamp, getHd]
    unfold processRecord
    rw [hc, hts]
    exact ⟨_, rfl, rfl⟩

/-- C2 witness: the three fallback stages, the raising case, and the tick
link, each at a concrete record. -/
theorem event_timestamp_fallback_witness :
    resolveTimestamp
        { rtype := "MBP1Msg", symbol := some "ES", instrument_id := none,
          ts_event := some 42, hd := some ⟨some 41⟩, levels := none } 0 =
      Except.ok 42 ∧
    resolveTimestamp
        { rtype := "MBP1Msg", symbol := some "ES", instrument_id := none,
          ts_event := none, hd := some ⟨some 41⟩, levels := none } 0 =
      Except.ok 41 ∧
    resolveTimestamp
        { rtype := "MBP1Msg", symbol := some "ES", instrument_id := none,
          ts_event := none, hd := some ⟨none⟩, levels := none } 99 =
      Except.ok 99 ∧
    resolveTimestamp
        { rtype := "TradeMsg", symbol := some "ES", instrument_id := none,
          ts_event := none, hd := none, levels := none } 0 =
      Except.error "TradeMsg object has no attribute hd" ∧
    ∃ t, processRecord 5
        { rtype := "MBP1Msg", symbol := some "ES", instrument_id := none,
          ts_event := some 42, hd := some ⟨some 41⟩, levels := none } =
      [Event.tick t] ∧ t.timestamp = 42 := by
  refine ⟨event_timestamp_fallback.1 _ 0 ⟨some 41⟩ 42 rfl rfl,
    event_timestamp_fallback.2.1 _ 0 ⟨some 41⟩ 41 rfl rfl rfl,
    event_timestamp_fallback.2.2.1 _ 99 ⟨none⟩ rfl rfl rfl,
    event_timestamp_fallback.2.2.2.1 _ 0 rfl, ?_⟩
  obtain ⟨t, h1, h2⟩ :=
    event_timestamp_fallback.2.2.2.2 5
      { rtype := "MBP1Msg", symbol := some "ES", instrument_id := none,
        ts_event := some 42, hd := some ⟨some 41⟩, levels := none }
      ⟨some 41⟩ (by decide) rfl
  exact ⟨t, h1, by simpa using h2⟩

end PriceMonitor

namespace PriceMonitor

/-- C3 counterexample: an iteration failure whose message contains
"authentication failed" is caught by the inner iteration handler and
emitted as a generic `Iteration error` event with no remediation steps;
the auth-classified event the outer handler would produce never appears in
the session. -/
theorem iteration_auth_failure_unclassified :
    runSession ["ES.FUT"] (some "valid-key") (Except.ok ()) []
        (some "authentication failed") 0 =
      [Event.status ["ES.FUT"], Event.test,
        Event.error "Iteration error: authentication failed" none []] ∧
    classifyConnectionError "authentication failed" ∉
      runSession ["ES.FUT"] (some "valid-key") (Except.ok ()) []
        (some "authentication failed") 0 := by
  constructor <;> decide

/-- C3 (amended): an upstream iteration failure — whatever its message —
ends the session with a single generic `Iteration error` event carrying no
remediation steps; no event of such a session carries remediation steps,
so the AuthenticationFailure classification (with its non-empty solutions
list) is reserved for failures raised before streaming starts. -/
theorem iteration_failure_generic_error :
    ∀ sym k rs m now, k ≠ "" →
      (∃ pre, runSession sym (some k) (Except.ok ()) rs (some m) now =
        pre ++ [Event.error ("Iteration error: " ++ m) none []]) ∧
      (∀ e ∈ runSession sym (some k) (Except.ok ()) rs (some m) now,
        ∀ msg d sols, e = Event.error msg d sols → sols = []) := by
  intro sym k rs m now hk
  have hrun : runSession sym (some k) (Except.ok ()) rs (some m) now =
      Event.status sym :: Event.test ::
        ((rs.map (processRecord now)).flatten ++
          [Event.error ("Iteration error: " ++ m) none []]) := by
    simp [runSession, keyMissing, hk, iterationTail]
  refine ⟨⟨Event.status sym :: Event.test ::
    (rs.map (processRecord now)).flatten, by rw [hrun]; rfl⟩, ?_⟩
  intro e he msg d sols hes
  rw [hrun] at he
  subst hes
  simp only [List.mem_cons] at he
  rcases he with he | he | he
  · simp at he
  · simp at he
  · rcases List.mem_append.1 he with he | he
    · rcases List.mem_flatten.1 he with ⟨l, hl, hel⟩
      rcases List.mem_map.1 hl with ⟨r, hr, rfl⟩
      rcases processRecord_event_shape now r _ hel with ⟨t, ht, _, _⟩ | ⟨m2, hm2⟩
      · simp at ht
      · injection hm2 with h1 h2 h3
    · simp at he
      exact he.2.2

/-- C3 witness: the amended statement at a concrete session whose
iteration fails with message "boom". -/
theorem iteration_failure_generic_error_witness :
    (∃ pre, runSession ["ES.FUT"] (some "valid-key") (Except.ok ()) []
        (some "boom") 0 =
      pre ++ [Event.error ("Iteration error: " ++ "boom") none []]) ∧
    (∀ e ∈ runSession ["ES.FUT"] (some "valid-key") (Except.ok ()) []
        (some "boom") 0,
      ∀ msg d sols, e = Event.error msg d sols → sols = []) :=
  iteration_failure_generic_error ["ES.FUT"] "valid-key" [] "boom" 0 (by decide)

/-- C4 counterexample: a session started with the placeholder credential
`your-api-key-here` passes the `if not DATABENTO_API_KEY` guard (a
non-empty string is truthy), emits Status and Test events and no Error
event, contradicting the claim that a placeholder credential yields
exactly one pre-connection Error and nothing else. -/
theorem placeholder_credential_not_rejected :
    keyMissing (some "your-api-key-here") = false ∧
    runSession ["ES.FUT"] (some "your-api-key-here") (Except.ok ()) [] none 0 =
      [Event.status ["ES.FUT"], Event.test] := by
  constructor <;> decide

/-- C4 (amended): a session started with a missing credential (unset or
empty) emits exactly one ConfigurationFailure error event and no
Status/Test/Tick events; the placeholder credential is not covered by the
guard and proceeds to a connection attempt. -/
theorem missing_credential_single_error :
    (∀ sym key sub rs ie now, key = none ∨ key = some "" →
      runSession sym key sub rs ie now =
        [Event.error "DATABENTO_API_KEY environment variable not set"
          (some "Please set DATABENTO_API_KEY environment variable to use the live data stream")
          []]) ∧
    keyMissing (some "your-api-key-here") = false := by
  refine ⟨?_, by decide⟩
  intro sym key sub rs ie now hkey
  rcases hkey with rfl | rfl <;> simp [runSession, keyMissing, configErrorEvent]

/-- C4 witness: the missing-credential behaviour at a concrete session with
an unset credential. -/
theorem missing_credential_single_error_witness :
    runSession ["ES.FUT"] none (Except.ok ()) [] none 0 =
      [Event.error "DATABENTO_API_KEY environment variable not set"
        (some "Please set DATABENTO_API_KEY environment variable to use the live data stream")
        []] :=
  missing_credential_single_error.1 ["ES.FUT"] none (Except.ok ()) [] none 0
    (Or.inl rfl)

end PriceMonitor

namespace PriceMonitor

/-- C5: a quote/trade record whose top-of-book level is entirely absent
(no `levels` attribute, or an empty levels list) still yields exactly one
tick, with all four of bid price, ask price, bid size and ask size `None`.
(Per the upstream record contract every record carries its nested header
`hd`; the degenerate header-less record is treated under C2.) -/
theorem absent_level_full_none_tick :
    ∀ now r h, classifyRecord r = RecordKind.quoteTrade → r.hd = some h →
      topLevel r.levels = none →
      ∃ t, processRecord now r = [Event.tick t] ∧ t.bid_price = none ∧
        t.ask_price = none ∧ t.bid_size = none ∧ t.ask_size = none := by
  intro now r h hc hh hl
  have hts : resolveTimestamp r now =
      Except.ok (r.ts_event.getD (h.ts_event.getD now)) := by
    obtain ⟨rt, sy, iid, tse, hd, lv⟩ := r
    obtain ⟨hts_event⟩ := h
    cases tse <;> cases hts_event <;> simp_all [resolveTimestamp, getHd]
  unfold processRecord
  rw [hc, hts]
  refine ⟨_, rfl, ?_, ?_, ?_, ?_⟩ <;> simp [hl]

/-- C5 witness: a concrete `MBP1Msg` record with no levels attribute
produces one tick whose four price/size fields are all `None`. -/
theorem absent_level_full_none_tick_witness :
    ∃ t, processRecord 0
        { rtype := "MBP1Msg", symbol := some "ES", instrument_id := none,
          ts_event := some 42, hd := some ⟨some 41⟩, levels := none } =
      [Event.tick t] ∧ t.bid_price = none ∧ t.ask_price = none ∧
      t.bid_size = none ∧ t.ask_size = none :=
  absent_level_full_none_tick 0
    { rtype := "MBP1Msg", symbol := some "ES", instrument_id := none,
      ts_event := some 42, hd := some ⟨some 41⟩, levels := none }
    ⟨some 41⟩ (by decide) rfl rfl

/-- C6: a record classified as a mapping update or as unhandled contributes
no event at all, and the streaming loop continues: a session whose record
stream contains such a record emits exactly the events of the same session
without it. -/
theorem mapping_unhandled_no_tick :
    ∀ now r, classifyRecord r = RecordKind.mappingUpdate ∨
        classifyRecord r = RecordKind.unhandled →
      processRecord now r = [] ∧
      ∀ sym key sub rs1 rs2 ie,
        runSession sym key sub (rs1 ++ r :: rs2) ie now =
          runSession sym key sub (rs1 ++ rs2) ie now := by
  intro now r hc
  have hp : processRecord now r = [] := by
    unfold processRecord
    rcases hc with hc | hc <;> rw [hc]
  refine ⟨hp, ?_⟩
  intro sym key sub rs1 rs2 ie
  unfold runSession
  split
  · rfl
  · cases sub with
    | error m => rfl
    | ok u => simp [hp]

/-- C6 witness: a symbol-mapping record and an unrecognized record, each
dropped from a concrete session without affecting its other events. -/
theorem mapping_unhandled_no_tick_witness :
    processRecord 0
      { rtype := "SymbolMappingMsg", symbol := none, instrument_id := some 7,
        ts_event := none, hd := none, levels := none } = [] ∧
    processRecord 0
      { rtype := "SystemMsg", symbol := none, instrument_id := some 7,
        ts_event := none, hd := none, levels := none } = [] ∧
    runSession ["ES.FUT"] (some "valid-key") (Except.ok ())
        [{ rtype := "SymbolMappingMsg", symbol := none, instrument_id := some 7,
           ts_event := none, hd := none, levels := none }] none 0 =
      runSession ["ES.FUT"] (some "valid-key") (Except.ok ()) [] none 0 :=
  ⟨(mapping_unhandled_no_tick 0 _ (Or.inl (by decide))).1,
   (mapping_unhandled_no_tick 0 _ (Or.inr (by decide))).1,
   (mapping_unhandled_no_tick 0
      { rtype := "SymbolMappingMsg", symbol := none, instrument_id := some 7,
        ts_event := none, hd := none, levels := none }
      (Or.inl (by decide))).2 ["ES.FUT"] (some "valid-key") (Except.ok ())
      [] [] none⟩

/-- C7: a session with a non-missing credential whose subscription succeeds
emits first exactly one Status event carrying the full requested symbol
list, then exactly one Test event, and every later event is a Tick or an
Error — Status and Test are never reordered or omitted. -/
theorem successful_subscription_preamble :
    ∀ sym k rs ie now, k ≠ "" →
      ∃ rest, runSession sym (some k) (Except.ok ()) rs ie now =
          Event.status sym :: Event.test :: rest ∧
        ∀ e ∈ rest, (∃ t, e = Event.tick t) ∨
          (∃ m d sols, e = Event.error m d sols) := by
  intro sym k rs ie now hk
  refine ⟨(rs.map (processRecord now)).flatten ++ iterationTail ie, ?_, ?_⟩
  · simp [runSession, keyMissing, hk]
  · intro e he
    rcases List.mem_append.1 he with he | he
    · rcases List.mem_flatten.1 he with ⟨l, hl, hel⟩
      rcases List.mem_map.1 hl with ⟨r, hr, rfl⟩
      rcases processRecord_event_shape now r e hel with ⟨t, rfl, _, _⟩ | ⟨m, rfl⟩
      · exact Or.inl ⟨t, rfl⟩
      · exact Or.inr ⟨m, none, [], rfl⟩
    · cases ie with
      | none => simp [iterationTail] at he
      | some m =>
        simp [iterationTail] at he
        subst he
        exact Or.inr ⟨_, _, _, rfl⟩

/-- C7 witness: a concrete successful subscription for the two requested
symbols starts with their Status event followed by the Test event. -/
theorem successful_subscription_preamble_witness :
    ∃ rest, runSession ["ES.FUT", "NQ.FUT"] (some "valid-key")
        (Except.ok ()) [] none 0 =
        Event.status ["ES.FUT", "NQ.FUT"] :: Event.test :: rest ∧
      ∀ e ∈ rest, (∃ t, e = Event.tick t) ∨
        (∃ m d sols, e = Event.error m d sols) :=
  successful_subscription_preamble ["ES.FUT", "NQ.FUT"] "valid-key" [] none 0
    (by decide)

end PriceMonitor

namespace PriceMonitor

/-- C8: a record whose processing raises (the one raising step the body
has is the `record.hd` access) yields exactly one record-processing Error
event; the session stays in the streaming loop and keeps processing the
remaining records, and any later well-formed quote/trade record still
yields its tick. -/
theorem bad_record_session_continues :
    ∀ now r, classifyRecord r = RecordKind.quoteTrade → r.hd = none →
      processRecord now r =
        [Event.error
          ("Record processing error: " ++ (r.rtype ++ " object has no attribute hd"))
          none []] ∧
      (∀ sym k rs2 ie, k ≠ "" →
        runSession sym (some k) (Except.ok ()) (r :: rs2) ie now =
          Event.status sym :: Event.test ::
            Event.error
              ("Record processing error: " ++ (r.rtype ++ " object has no attribute hd"))
              none [] ::
            ((rs2.map (processRecord now)).flatten ++ iterationTail ie)) ∧
      (∀ g hg, classifyRecord g = RecordKind.quoteTrade → g.hd = some hg →
        ∃ t, processRecord now g = [Event.tick t]) := by
  intro now r hc hh
  have hp : processRecord now r =
      [Event.error
        ("Record processing error: " ++ (r.rtype ++ " object has no attribute hd"))
        none []] := by
    unfold processRecord
    rw [hc]
    have ht : resolveTimestamp r now =
        Except.error (r.rtype ++ " object has no attribute hd") := by
      simp [resolveTimestamp, getHd, hh]
    rw [ht]
  refine ⟨hp, ?_, ?_⟩
  · intro sym k rs2 ie hk
    simp [runSession, keyMissing, hk, hp]
  · intro g hg hcg hhg
    unfold processRecord
    rw [hcg, resolveTimestamp_ok_of_header g hg now hhg]
    exact ⟨_, rfl⟩

/-- C8 witness: a header-less `MBP1Msg` record followed by a well-formed
one — the session emits the record error and then the later tick. -/
theorem bad_record_session_continues_witness :
    processRecord 0
      { rtype := "MBP1Msg", symbol := some "ES", instrument_id := none,
        ts_event := some 42, hd := none, levels := none } =
      [Event.error "Record processing error: MBP1Msg object has no attribute hd"
        none []] ∧
    (∃ t, processRecord 0
      { rtype := "MBP1Msg", symbol := some "NQ", instrument_id := none,
        ts_event := some 50, hd := some ⟨some 41⟩,
        levels := some [⟨some 102, none, some 3, some 0⟩] } =
      [Event.tick t]) ∧
    runSession ["ES.FUT"] (some "valid-key") (Except.ok ())
        [{ rtype := "MBP1Msg", symbol := some "ES", instrument_id := none,
           ts_event := some 42, hd := none, levels := none },
         { rtype := "MBP1Msg", symbol := some "NQ", instrument_id := none,
           ts_event := some 50, hd := some ⟨some 41⟩,
           levels := some [⟨some 102, none, some 3, some 0⟩] }] none 0 =
      [Event.status ["ES.FUT"], Event.test,
       Event.error "Record processing error: MBP1Msg object has no attribute hd"
         none [],
       Event.tick
         { symbol := "NQ", timestamp := 50, bid_price := some 102,
           ask_price := none, bid_size := some 3, ask_size := none,
           received_at := 0, record_type := "MBP1Msg" }] :=
  ⟨(bad_record_session_continues 0
      { rtype := "MBP1Msg", symbol := some "ES", instrument_id := none,
        ts_event := some 42, hd := none, levels := none } (by decide) rfl).1,
   (bad_record_session_continues 0
      { rtype := "MBP1Msg", symbol := some "ES", instrument_id := none,
        ts_event := some 42, hd := none, levels := none } (by decide) rfl).2.2
      { rtype := "MBP1Msg", symbol := some "NQ", instrument_id := none,
        ts_event := some 50, hd := some ⟨some 41⟩,
        levels := some [⟨some 102, none, some 3, some 0⟩] }
      ⟨some 41⟩ (by decide) rfl,
   by decide⟩

/-- C9: the symbols query parameter never parses to an empty list (Python
`split` always returns at least one piece), the endpoint rejects with HTTP
400 exactly when the parsed list is empty, and every session it creates
carries at least one symbol. -/
theorem empty_symbols_never_reach_session :
    ∀ s, parseSymbols s ≠ [] ∧
      (streamPricesEndpoint s = Except.error 400 ↔ parseSymbols s = []) ∧
      ∀ l, streamPricesEndpoint s = Except.ok l → 1 ≤ l.length := by
  intro s
  have hne : parseSymbols s ≠ [] := by
    simpa [parseSymbols] using splitComma_ne_nil s.toList []
  have hok : streamPricesEndpoint s = Except.ok (parseSymbols s) := by
    simp only [streamPricesEndpoint]
    rw [if_neg hne]
  refine ⟨hne, ?_, ?_⟩
  · rw [hok]
    constructor
    · intro h
      simp at h
    · intro h
      exact absurd h hne
  · intro l hl
    rw [hok] at hl
    injection hl with h
    subst h
    exact List.length_pos.mpr hne

/-- C9 witness: the default symbols parameter parses to two symbols and a
created session carries them. -/
theorem empty_symbols_never_reach_session_witness :
    parseSymbols "ES.FUT,NQ.FUT" ≠ [] ∧
    1 ≤ (["ES.FUT", "NQ.FUT"] : List String).length :=
  ⟨(empty_symbols_never_reach_session "ES.FUT,NQ.FUT").1,
   (empty_symbols_never_reach_session "ES.FUT,NQ.FUT").2.2
     ["ES.FUT", "NQ.FUT"] rfl⟩

/-- C10: an absent or zero bid/ask size decodes to `None` (never to the
integer 0), a present non-zero size decodes to itself, and no tick emitted
by any session carries a size equal to 0. -/
theorem size_decode_never_zero :
    decodeSize none = none ∧
    decodeSize (some 0) = none ∧
    (∀ n, n ≠ 0 → decodeSize (some n) = some n) ∧
    (∀ o, decodeSize o ≠ some 0) ∧
    (∀ sym key sub rs ie now t,
      Event.tick t ∈ runSession sym key sub rs ie now →
      t.bid_size ≠ some 0 ∧ t.ask_size ≠ some 0) := by
  refine ⟨rfl, rfl, ?_, decodeSize_ne_some_zero, ?_⟩
  · intro n hn
    simp [decodeSize, hn]
  · intro sym key sub rs ie now t ht
    rcases runSession_event_cases sym key sub rs ie now _ ht with
      h | ⟨m, hm⟩ | h | h | ⟨r, _, hmem⟩ | ⟨m, hm⟩
    · simp [configErrorEvent] at h
    · obtain ⟨msg, d, sols, hce⟩ := classifyConnectionError_is_error m
      rw [hce] at hm
      simp at hm
    · simp at h
    · simp at h
    · rcases processRecord_event_shape now r _ hmem with
        ⟨t2, ht2, hb, ha⟩ | ⟨m, hm⟩
      · injection ht2 with h2
        subst h2
        exact ⟨hb, ha⟩
      · simp at hm
    · simp at hm

/-- C10 witness: a non-zero size decodes to itself, and the tick of a
concrete session has non-zero sizes (its record carries `bid_sz = 3`,
`ask_sz = 0`, decoded to `some 3` and `None`). -/
theorem size_decode_never_zero_witness :
    decodeSize (some 5) = some 5 ∧
    (({ symbol := "NQ", timestamp := 50, bid_price := some 102,
        ask_price := none, bid_size := some 3, ask_size := none,
        received_at := 0, record_type := "MBP1Msg" } : Tick).bid_size ≠ some 0 ∧
     ({ symbol := "NQ", timestamp := 50, bid_price := some 102,
        ask_price := none, bid_size := some 3, ask_size := none,
        received_at := 0, record_type := "MBP1Msg" } : Tick).ask_size ≠ some 0) :=
  ⟨size_decode_never_zero.2.2.1 5 (by decide),
   size_decode_never_zero.2.2.2.2 ["ES.FUT"] (some "valid-key") (Except.ok ())
     [{ rtype := "MBP1Msg", symbol := some "NQ", instrument_id := none,
        ts_event := some 50, hd := some ⟨some 41⟩,
        levels := some [⟨some 102, none, some 3, some 0⟩] }] none 0
     { symbol := "NQ", timestamp := 50, bid_price := some 102,
       ask_price := none, bid_size := some 3, ask_size := none,
       received_at := 0, record_type := "MBP1Msg" }
     (by decide)⟩

end PriceMonitor
